import Mathlib

/-!
# Shallow embedding of `src/core/program.ts` (G3D shader program abstraction)

The embedding models the `Program` class: type-token parsing (`parseType`),
shader compilation and program linking (`initProgram` with its inner
`loadShader` and `getVariableType` helpers), reflection of active attributes
and uniforms into binding tables, texture-unit allocation, and the per-frame
`uniform` / `attribute` dispatchers plus `destructor`.

The WebGL context is modelled by a `GLEnv` record describing what the GPU
reports (compile/link statuses, info logs, active variables, locations), and
GPU side effects are modelled as explicit `GLCall` traces.  JavaScript string
operations used by the source (`split`, `substr`, indexing, `indexOf`,
one-occurrence `replace`, `Number` of a one-character string) are modelled by
character-list functions below; `Option Nat` stands for a JS number that may
be `NaN` (`none` = NaN).
-/

/-! ## Definitions: the embedding of the source, the spec-side models, and concrete inputs used by witnesses -/

/-- JS `s.startsWith(pat)` on character lists (used to locate substrings). -/
def strStartsWith : List Char → List Char → Bool
  | _, [] => true
  | [], _ :: _ => false
  | c :: cs, p :: ps => c == p && strStartsWith cs ps

/-- JS `s.indexOf(pat) !== -1` on character lists. -/
def containsSub : List Char → List Char → Bool
  | [], pat => strStartsWith [] pat
  | c :: cs, pat => strStartsWith (c :: cs) pat || containsSub cs pat

/-- JS `s.replace(pat, repl)` with a string pattern: replaces only the FIRST
occurrence of `pat` (this is the JavaScript semantics used by the source's
`name.replace("[0]", "")`). -/
def replaceFirstSub (s pat repl : List Char) : List Char :=
  match s with
  | [] => if pat.isEmpty then repl else []
  | c :: cs =>
    if strStartsWith (c :: cs) pat then repl ++ (c :: cs).drop pat.length
    else c :: replaceFirstSub cs pat repl

/-- JS `s.indexOf(pat) !== -1` on strings. -/
def jsIncludes (s pat : String) : Bool :=
  containsSub s.data pat.data

/-- JS `s.replace(pat, repl)` (first occurrence only) on strings. -/
def jsReplaceFirst (s pat repl : String) : String :=
  String.mk (replaceFirstSub s.data pat.data repl.data)

/-- JS `s.split(sep)` for a one-character separator: `splitSepAux sep rest acc`
accumulates the current segment in reverse. -/
def splitSepAux (sep : Char) : List Char → List Char → List (List Char)
  | [], cur => [cur.reverse]
  | c :: cs, cur =>
    if c == sep then cur.reverse :: splitSepAux sep cs []
    else splitSepAux sep cs (c :: cur)

/-- JS `s.split(sep)` for a one-character separator string. -/
def jsSplit (s : String) (sep : Char) : List String :=
  (splitSepAux sep s.data []).map String.mk

/-- JS `s.substr(0, n)`. -/
def jsSubstrFrom0 (s : String) (n : Nat) : String :=
  String.mk (s.data.take n)

/-- JS `s[i]`: `none` models `undefined`. -/
def jsCharAt (s : String) (i : Nat) : Option Char :=
  s.data.get? i

/-- JS `Number(x)` where `x` is `s[i]` (a one-character string or
`undefined`): a digit character yields its value, anything else yields `NaN`
(modelled as `none`). -/
def jsCharNumber (c : Option Char) : Option Nat :=
  match c with
  | some ch => if ch.isDigit then some (ch.toNat - 48) else none
  | none => none

/-- Result of `Program.parseType`: `{ baseType, vecType, baseVecType, vecSize }`.
`vecSize : Option Nat` models a JS number that may be `NaN`. -/
structure ParsedType where
  baseType : String
  vecType : String
  baseVecType : String
  vecSize : Option Nat
deriving Repr, DecidableEq

/-- `Program.parseType` from `src/core/program.ts`:
`baseType = type.split("_")[0]`;
`vecType = type.split("_").length > 1 ? type.split("_")[1] : "VEC1"`;
`baseVecType = vecType.substr(0, 3)`; `vecSize = Number(vecType[3])`. -/
def parseType (type : String) : ParsedType :=
  let parts := jsSplit type '_'
  let baseType := parts.headD ""
  let vecType := if parts.length > 1 then parts.getD 1 "" else "VEC1"
  let baseVecType := jsSubstrFrom0 vecType 3
  let vecSize := jsCharNumber (jsCharAt vecType 3)
  { baseType := baseType, vecType := vecType, baseVecType := baseVecType,
    vecSize := vecSize }

/-- One entry of the GPU's reflection report (`WebGLActiveInfo`): the variable
name and its raw type.  The source maps the numeric `type` back to its token
name via `getVariableType`; since the WebGL type enum values are distinct
numbers, the type is modelled directly by its token string. -/
structure ActiveInfo where
  name : String
  typeToken : String
deriving Repr, DecidableEq

/-- The supported raw type tokens (the `types` array inside
`initProgram.getVariableType`). -/
def supportedTypes : List String :=
  ["FLOAT", "FLOAT_VEC2", "FLOAT_VEC3", "FLOAT_VEC4", "FLOAT_MAT2", "FLOAT_MAT3", "FLOAT_MAT4",
   "INT", "INT_VEC2", "INT_VEC3", "INT_VEC4",
   "BOOL", "BOOL_VEC2", "BOOL_VEC3", "BOOL_VEC4",
   "SAMPLER_2D", "SAMPLER_CUBE"]

/-- `initProgram.getVariableType`: scan the `types` array for the token whose
GL enum value equals the reported value and return it; otherwise throw.  The
thrown message is the source's template literal `get type failed ' + value`,
which does NOT interpolate the value (there is no `${}` in it). -/
def getVariableType (value : String) : Except String String :=
  match supportedTypes.find? (fun t => t == value) with
  | some t => Except.ok t
  | none => Except.error "get type failed \x27 + value"

/-- One entry of `Program.uniforms`: `{ type, info, position, unit }`.
`position` models the opaque `WebGLUniformLocation`; `unit` is `undefined`
(`none`) except for sampler uniforms. -/
structure UniformBinding where
  type : String
  info : ActiveInfo
  position : Int
  unit : Option Nat
deriving Repr, DecidableEq

/-- One entry of `Program.attributes`: `{ type, info, position }`. -/
structure AttributeBinding where
  type : String
  info : ActiveInfo
  position : Int
deriving Repr, DecidableEq

/-- What the ambient WebGL context reports to `initProgram`: compile statuses
and info logs for the two shader stages, link status and log, the created
program handle, the enumerated active attributes/uniforms, and the location
lookup functions. -/
structure GLEnv where
  programHandle : Nat
  fragCompileOk : Bool
  vertCompileOk : Bool
  fragInfoLog : String
  vertInfoLog : String
  linkOk : Bool
  linkInfoLog : String
  activeAttributes : List ActiveInfo
  activeUniforms : List ActiveInfo
  attribLocation : String → Int
  uniformLocation : String → Int

/-- The fields of a constructed `Program` instance.  The binding tables are
JS objects modelled as association lists where the most recent write is the
head (`List.lookup` finds the most recent write first). -/
structure ProgramState where
  glProgram : Nat
  uniforms : List (String × UniformBinding)
  attributes : List (String × AttributeBinding)
  textureCount : Nat
deriving Repr, DecidableEq

/-- A value passed to `Program.uniform`: either a texture handle or a flat
numeric buffer. -/
inductive GLValue where
  | texture (handle : Nat)
  | buffer (data : List Int)
deriving Repr, DecidableEq

/-- A texture bind target (`gl.TEXTURE_2D` / `gl.TEXTURE_CUBE_MAP`). -/
inductive TexTarget where
  | texture2D
  | textureCubeMap
deriving Repr, DecidableEq

/-- One observable GPU call issued by the per-frame operations. -/
inductive GLCall where
  | callUniformV (method : String) (location : Int) (value : GLValue)
  | callUniformMatrix (method : String) (location : Int) (transpose : Bool) (value : GLValue)
  | activeTexture (unit : Option Nat)
  | bindTexture (target : TexTarget) (value : GLValue)
  | uniform1i (location : Int) (unit : Option Nat)
  | bindBuffer (target : String) (buffer : Nat)
  | vertexAttribPointer (location : Int) (size : Option Nat) (baseType : String)
      (normalized : Bool) (stride : Int) (offset : Int)
  | enableVertexAttribArray (location : Int)
  | deleteProgram (handle : Nat)
deriving Repr, DecidableEq

/-- The two shader stages. -/
inductive ShaderStage where
  | fragment
  | vertex
deriving Repr, DecidableEq

/-- `initProgram.loadShader`: compile one stage; on a false compile status
throw `"An error occurred compiling the shaders: " + gl.getShaderInfoLog(shader)`.
The thrown message carries the info log but nothing identifying the stage. -/
def loadShader (env : GLEnv) (stage : ShaderStage) : Except String Unit :=
  match stage with
  | ShaderStage.fragment =>
    if env.fragCompileOk then Except.ok ()
    else Except.error ("An error occurred compiling the shaders: " ++ env.fragInfoLog)
  | ShaderStage.vertex =>
    if env.vertCompileOk then Except.ok ()
    else Except.error ("An error occurred compiling the shaders: " ++ env.vertInfoLog)

/-- The attribute loop of `initProgram`: for each reported attribute, resolve
its type token (fatal on an unknown token), look up its location, and store
`{ type, info, position }` under the reported name (the JS object write is
modelled by consing, so lookups see the latest write). -/
def reflectAttributes (env : GLEnv) :
    List ActiveInfo → List (String × AttributeBinding) →
    Except String (List (String × AttributeBinding))
  | [], tbl => Except.ok tbl
  | a :: rest, tbl =>
    match getVariableType a.typeToken with
    | Except.error e => Except.error e
    | Except.ok t =>
      reflectAttributes env rest
        ((a.name, { type := t, info := a, position := env.attribLocation a.name }) :: tbl)

/-- The two texture-unit allocation tests in the uniform loop of
`initProgram` (`if (baseVecType === "2D")` then `if (baseVecType === "CUB")`),
each pre-incrementing the instance counter `textureCount` and storing the
incremented value as the unit; returns (unit stored in the binding, counter
after this uniform). -/
def allocUnit (baseVecType : String) (textureCount : Nat) : Option Nat × Nat :=
  let unit0 : Option Nat := none
  let (unit1, cnt1) :=
    if baseVecType = "2D" then (some (textureCount + 1), textureCount + 1)
    else (unit0, textureCount)
  if baseVecType = "CUB" then (some (cnt1 + 1), cnt1 + 1)
  else (unit1, cnt1)

/-- The uniform-name canonicalization inside the uniform loop of
`initProgram`: `if (name.indexOf("[0]") !== -1) name = name.replace("[0]", "")`.
JS `replace` with a string pattern replaces only the first occurrence. -/
def canonicalName (name : String) : String :=
  if jsIncludes name "[0]" then jsReplaceFirst name "[0]" "" else name

/-- The uniform loop of `initProgram`: resolve the type token (fatal on an
unknown token), look up the location by the reported name, pre-increment the
texture counter for `2D` and for `CUB` uniforms and store the unit, strip the
first occurrence of `"[0]"` from the name (JS `indexOf` / `replace`), and
store the binding under the canonicalized name. -/
def reflectUniforms (env : GLEnv) :
    List ActiveInfo → List (String × UniformBinding) → Nat →
    Except String (List (String × UniformBinding) × Nat)
  | [], tbl, textureCount => Except.ok (tbl, textureCount)
  | u :: rest, tbl, textureCount =>
    match getVariableType u.typeToken with
    | Except.error e => Except.error e
    | Except.ok t =>
      let p := parseType t
      let alloc := allocUnit p.baseVecType textureCount
      let name := canonicalName u.name
      reflectUniforms env rest
        ((name, { type := t, info := u, position := env.uniformLocation u.name,
                  unit := alloc.1 }) :: tbl) alloc.2

/-- `Program.initProgram`: compile the fragment then the vertex stage (either
failure aborts), link (a false link status aborts with the link log), then
reflect attributes and uniforms into the binding tables.  The texture-unit
counter is the instance field `textureCount`, initialized to `0`. -/
def initProgram (env : GLEnv) : Except String ProgramState :=
  match loadShader env ShaderStage.fragment with
  | Except.error e => Except.error e
  | Except.ok _ =>
    match loadShader env ShaderStage.vertex with
    | Except.error e => Except.error e
    | Except.ok _ =>
      if env.linkOk = false then
        Except.error ("Unable to initialize the shader program: " ++ env.linkInfoLog)
      else
        match reflectAttributes env env.activeAttributes [] with
        | Except.error e => Except.error e
        | Except.ok attributes =>
          match reflectUniforms env env.activeUniforms [] 0 with
          | Except.error e => Except.error e
          | Except.ok (uniforms, textureCount) =>
            Except.ok { glProgram := env.programHandle, uniforms := uniforms,
                        attributes := attributes, textureCount := textureCount }

/-- JS string interpolation of a number that may be `NaN`. -/
def jsNumToString (n : Option Nat) : String :=
  match n with
  | some m => toString m
  | none => "NaN"

/-- `Program.uniform(name, value)`: a falsy lookup (absent name) is a no-op;
otherwise dispatch on `baseVecType`, building the GL method name from the
parsed descriptor exactly as the source concatenates it.  The returned pair
is (observable GPU calls, instance state after the call); the method performs
no assignment to instance state. -/
def uniform (st : ProgramState) (name : String) (value : GLValue) :
    Except String (List GLCall × ProgramState) :=
  match st.uniforms.lookup name with
  | none => Except.ok ([], st)
  | some b =>
    let p := parseType b.type
    match p.baseVecType with
    | "VEC" =>
      Except.ok ([GLCall.callUniformV
        ("uniform" ++ jsNumToString p.vecSize ++ (if p.baseType = "FLOAT" then "f" else "i") ++ "v")
        b.position value], st)
    | "MAT" =>
      Except.ok ([GLCall.callUniformMatrix
        ("uniform" ++ "Matrix" ++ jsNumToString p.vecSize ++ "fv")
        b.position false value], st)
    | "2D" =>
      Except.ok ([GLCall.activeTexture b.unit,
                  GLCall.bindTexture TexTarget.texture2D value,
                  GLCall.uniform1i b.position b.unit], st)
    | "CUB" =>
      Except.ok ([GLCall.activeTexture b.unit,
                  GLCall.bindTexture TexTarget.textureCubeMap value,
                  GLCall.uniform1i b.position b.unit], st)
    | other => Except.error ("baseVecType invalid " ++ other)

/-- `Program.attribute(name, buffer, stride, offset)`: a falsy lookup (absent
name) is a no-op (the `else` branch holds only a commented-out warning);
otherwise bind the buffer, configure the vertex layout with
`(position, vecSize, gl[baseType], false, stride, offset)`, and enable the
attribute array at that location.  (The source method is named `attribute`,
a reserved word in Lean, hence the spec's name `setAttribute`.) -/
def setAttribute (st : ProgramState) (name : String) (buffer : Nat)
    (stride offset : Int) : List GLCall × ProgramState :=
  match st.attributes.lookup name with
  | none => ([], st)
  | some b =>
    let p := parseType b.type
    ([GLCall.bindBuffer "ARRAY_BUFFER" buffer,
      GLCall.vertexAttribPointer b.position p.vecSize p.baseType false stride offset,
      GLCall.enableVertexAttribArray b.position], st)

/-- `Program.destructor()`: `gl.deleteProgram(this.glProgram)` and nothing
else — no field is assigned and no destroyed flag exists. -/
def destructor (st : ProgramState) : List GLCall × ProgramState :=
  ([GLCall.deleteProgram st.glProgram], st)

/-- The texture units stored in a uniform table, listed in the order the
uniforms were enumerated during reflection (the table conses new entries, so
enumeration order is the reverse of the list order). -/
def samplerUnits (tbl : List (String × UniformBinding)) : List Nat :=
  tbl.reverse.filterMap (fun e => e.2.unit)

/-- Whether a raw type token denotes a sampler uniform (either branch of the
unit-allocation test in `initProgram` fires on it). -/
def isSamplerToken (t : String) : Bool :=
  (parseType t).baseVecType == "2D" || (parseType t).baseVecType == "CUB"

/-- Number of sampler uniforms in a reflection report. -/
def samplerCount (us : List ActiveInfo) : Nat :=
  (us.filter (fun u => isSamplerToken u.typeToken)).length

/-- Witness environment for C1, first instance: three uniforms of which two
are samplers (a 2D sampler first, a cube sampler last). -/
def envC1a : GLEnv :=
  { programHandle := 1, fragCompileOk := true, vertCompileOk := true,
    fragInfoLog := "", vertInfoLog := "", linkOk := true, linkInfoLog := "",
    activeAttributes := [{ name := "aPosition", typeToken := "FLOAT_VEC3" }],
    activeUniforms := [{ name := "uSampler", typeToken := "SAMPLER_2D" },
                       { name := "uPMatrix", typeToken := "FLOAT_MAT4" },
                       { name := "uCube", typeToken := "SAMPLER_CUBE" }],
    attribLocation := fun _ => 0, uniformLocation := fun _ => 3 }

/-- Witness environment for C1, second (independent) instance: one cube
sampler uniform only. -/
def envC1b : GLEnv :=
  { programHandle := 2, fragCompileOk := true, vertCompileOk := true,
    fragInfoLog := "", vertInfoLog := "", linkOk := true, linkInfoLog := "",
    activeAttributes := [],
    activeUniforms := [{ name := "uEnvMap", typeToken := "SAMPLER_CUBE" }],
    attribLocation := fun _ => 0, uniformLocation := fun _ => 1 }

/-- The state built by `initProgram envC1a`. -/
def stC1a : ProgramState :=
  { glProgram := 1,
    uniforms := [("uCube",
                  { type := "SAMPLER_CUBE",
                    info := { name := "uCube", typeToken := "SAMPLER_CUBE" },
                    position := 3, unit := some 2 }),
                 ("uPMatrix",
                  { type := "FLOAT_MAT4",
                    info := { name := "uPMatrix", typeToken := "FLOAT_MAT4" },
                    position := 3, unit := none }),
                 ("uSampler",
                  { type := "SAMPLER_2D",
                    info := { name := "uSampler", typeToken := "SAMPLER_2D" },
                    position := 3, unit := some 1 })],
    attributes := [("aPosition",
                    { type := "FLOAT_VEC3",
                      info := { name := "aPosition", typeToken := "FLOAT_VEC3" },
                      position := 0 })],
    textureCount := 2 }

/-- The state built by `initProgram envC1b`. -/
def stC1b : ProgramState :=
  { glProgram := 2,
    uniforms := [("uEnvMap",
                  { type := "SAMPLER_CUBE",
                    info := { name := "uEnvMap", typeToken := "SAMPLER_CUBE" },
                    position := 1, unit := some 1 })],
    attributes := [],
    textureCount := 1 }

/-- The spec's category vocabulary for a type descriptor. -/
inductive SpecCategory where
  | SCALAR
  | VECTOR
  | MATRIX
  | SAMPLER_2D
  | SAMPLER_CUBE
deriving Repr, DecidableEq

/-- Modelled from the spec: the documented category of a raw type token —
the first three characters of the second segment select the category
(`VEC` → VECTOR, `MAT` → MATRIX, `2D` → SAMPLER_2D, `CUB` → SAMPLER_CUBE),
and a token with no second segment is a bare scalar (category SCALAR). -/
def specCategoryOf (token : String) : Option SpecCategory :=
  match jsSplit token '_' with
  | [_] => some SpecCategory.SCALAR
  | _ :: second :: _ =>
    match jsSubstrFrom0 second 3 with
    | "VEC" => some SpecCategory.VECTOR
    | "MAT" => some SpecCategory.MATRIX
    | "2D" => some SpecCategory.SAMPLER_2D
    | "CUB" => some SpecCategory.SAMPLER_CUBE
    | _ => none
  | [] => none

/-- The category the code's `baseVecType` string denotes, in the claim's
vocabulary (`VEC` → VECTOR, `MAT` → MATRIX, `2D` → SAMPLER_2D,
`CUB` → SAMPLER_CUBE); no `baseVecType` value denotes SCALAR. -/
def codeCategory (p : ParsedType) : Option SpecCategory :=
  match p.baseVecType with
  | "VEC" => some SpecCategory.VECTOR
  | "MAT" => some SpecCategory.MATRIX
  | "2D" => some SpecCategory.SAMPLER_2D
  | "CUB" => some SpecCategory.SAMPLER_CUBE
  | _ => none

/-- The (baseType, category, arity) triple that `parseType` actually
produces for a token. -/
def codeDescriptor (token : String) : Option (String × SpecCategory × Option Nat) :=
  (codeCategory (parseType token)).map
    (fun c => ((parseType token).baseType, c, (parseType token).vecSize))

/-- Modelled from the spec, amended: the documented
(baseType, category, arity) for each token — the segment before the
separator is baseType; a second segment's first three characters select the
category and its trailing digit (when present) is the arity; a token with NO
second segment is treated by the code as the vector `VEC1`, so its category
is VECTOR (not SCALAR) with arity 1. -/
def specDescriptorAmended (token : String) : Option (String × SpecCategory × Option Nat) :=
  match jsSplit token '_' with
  | [b] => some (b, SpecCategory.VECTOR, some 1)
  | b :: second :: _ =>
    let cat : Option SpecCategory :=
      match jsSubstrFrom0 second 3 with
      | "VEC" => some SpecCategory.VECTOR
      | "MAT" => some SpecCategory.MATRIX
      | "2D" => some SpecCategory.SAMPLER_2D
      | "CUB" => some SpecCategory.SAMPLER_CUBE
      | _ => none
    cat.map (fun c => (b, c, jsCharNumber second.data.getLast?))
  | [] => none

/-- A concrete program state exercising every dispatcher category. -/
def stC3 : ProgramState :=
  { glProgram := 5,
    uniforms := [("uColor",
                  { type := "FLOAT_VEC4",
                    info := { name := "uColor", typeToken := "FLOAT_VEC4" },
                    position := 0, unit := none }),
                 ("uMV",
                  { type := "FLOAT_MAT3",
                    info := { name := "uMV", typeToken := "FLOAT_MAT3" },
                    position := 1, unit := none }),
                 ("uTex",
                  { type := "SAMPLER_2D",
                    info := { name := "uTex", typeToken := "SAMPLER_2D" },
                    position := 2, unit := some 1 }),
                 ("uEnv",
                  { type := "SAMPLER_CUBE",
                    info := { name := "uEnv", typeToken := "SAMPLER_CUBE" },
                    position := 3, unit := some 2 })],
    attributes := [("aPosition",
                    { type := "FLOAT_VEC3",
                      info := { name := "aPosition", typeToken := "FLOAT_VEC3" },
                      position := 0 })],
    textureCount := 2 }

/-- The `uTex` binding of `stC3`. -/
def bC3 : UniformBinding :=
  { type := "SAMPLER_2D", info := { name := "uTex", typeToken := "SAMPLER_2D" },
    position := 2, unit := some 1 }

/-- The `aPosition` binding of `stC3`. -/
def bC8 : AttributeBinding :=
  { type := "FLOAT_VEC3", info := { name := "aPosition", typeToken := "FLOAT_VEC3" },
    position := 0 }

/-- An environment whose fragment stage fails to compile with log `bad`. -/
def envFragFail : GLEnv :=
  { programHandle := 3, fragCompileOk := false, vertCompileOk := true,
    fragInfoLog := "bad", vertInfoLog := "", linkOk := true, linkInfoLog := "",
    activeAttributes := [], activeUniforms := [],
    attribLocation := fun _ => 0, uniformLocation := fun _ => 0 }

/-- An environment whose vertex stage fails to compile with the same log. -/
def envVertFail : GLEnv :=
  { programHandle := 3, fragCompileOk := true, vertCompileOk := false,
    fragInfoLog := "", vertInfoLog := "bad", linkOk := true, linkInfoLog := "",
    activeAttributes := [], activeUniforms := [],
    attribLocation := fun _ => 0, uniformLocation := fun _ => 0 }

/-- An environment (valid stages and link) reporting one uniform with the
unsupported raw type token `UNSIGNED_INT`. -/
def envC7 : GLEnv :=
  { programHandle := 4, fragCompileOk := true, vertCompileOk := true,
    fragInfoLog := "", vertInfoLog := "", linkOk := true, linkInfoLog := "",
    activeAttributes := [],
    activeUniforms := [{ name := "uBug", typeToken := "UNSIGNED_INT" }],
    attribLocation := fun _ => 0, uniformLocation := fun _ => 0 }

/-- An environment reporting one uniform whose name carries the array-element
suffix `[0]` twice (`a[0].b[0]`, as the GPU reports for an array nested in an
array of structs). -/
def envC4 : GLEnv :=
  { programHandle := 6, fragCompileOk := true, vertCompileOk := true,
    fragInfoLog := "", vertInfoLog := "", linkOk := true, linkInfoLog := "",
    activeAttributes := [],
    activeUniforms := [{ name := "a[0].b[0]", typeToken := "FLOAT" }],
    attribLocation := fun _ => 0, uniformLocation := fun _ => 0 }

/-- The state built by `initProgram envC4`. -/
def stC4 : ProgramState :=
  { glProgram := 6,
    uniforms := [("a.b[0]",
                  { type := "FLOAT",
                    info := { name := "a[0].b[0]", typeToken := "FLOAT" },
                    position := 0, unit := none })],
    attributes := [],
    textureCount := 0 }

/-- An environment with a single array uniform reported as `uLights[0]`. -/
def envC4b : GLEnv :=
  { programHandle := 8, fragCompileOk := true, vertCompileOk := true,
    fragInfoLog := "", vertInfoLog := "", linkOk := true, linkInfoLog := "",
    activeAttributes := [],
    activeUniforms := [{ name := "uLights[0]", typeToken := "FLOAT_VEC4" }],
    attribLocation := fun _ => 0, uniformLocation := fun _ => 2 }

/-- The state built by `initProgram envC4b`. -/
def stC4b : ProgramState :=
  { glProgram := 8,
    uniforms := [("uLights",
                  { type := "FLOAT_VEC4",
                    info := { name := "uLights[0]", typeToken := "FLOAT_VEC4" },
                    position := 2, unit := none })],
    attributes := [],
    textureCount := 0 }

/-! ## Lemmas and claim theorems -/

lemma getVariableType_ok {v : String} (hv : v ∈ supportedTypes) :
    getVariableType v = Except.ok v := by
  unfold getVariableType
  cases hfind : supportedTypes.find? (fun t => t == v) with
  | none =>
    have h := List.find?_eq_none.mp hfind v hv
    simp at h
  | some t =>
    have ht : t = v := by simpa using List.find?_some hfind
    subst ht
    rfl

lemma getVariableType_ok_inv {v t : String} (h : getVariableType v = Except.ok t) :
    t = v ∧ v ∈ supportedTypes := by
  unfold getVariableType at h
  cases hfind : supportedTypes.find? (fun t => t == v) with
  | none =>
    rw [hfind] at h
    simp at h
  | some x =>
    rw [hfind] at h
    have hx : x = v := by simpa using List.find?_some hfind
    have hmem : x ∈ supportedTypes := List.mem_of_find?_eq_some hfind
    injection h with h'
    subst h'
    exact ⟨hx, hx ▸ hmem⟩

lemma getVariableType_err {v : String} (hv : v ∉ supportedTypes) :
    getVariableType v = Except.error "get type failed \x27 + value" := by
  unfold getVariableType
  cases hfind : supportedTypes.find? (fun t => t == v) with
  | none => rfl
  | some x =>
    have hx : x = v := by simpa using List.find?_some hfind
    have hmem : x ∈ supportedTypes := List.mem_of_find?_eq_some hfind
    exact absurd (hx ▸ hmem) hv

lemma allocUnit_2d {b : String} (h : b = "2D") (cnt : Nat) :
    allocUnit b cnt = (some (cnt + 1), cnt + 1) := by
  subst h; rfl

lemma allocUnit_cub {b : String} (h : b = "CUB") (cnt : Nat) :
    allocUnit b cnt = (some (cnt + 1), cnt + 1) := by
  subst h; rfl

lemma allocUnit_other {b : String} (h2 : b ≠ "2D") (hc : b ≠ "CUB") (cnt : Nat) :
    allocUnit b cnt = (none, cnt) := by
  simp [allocUnit, h2, hc]

lemma samplerUnits_nil : samplerUnits [] = [] := rfl

lemma samplerUnits_cons (e : String × UniformBinding)
    (tbl : List (String × UniformBinding)) :
    samplerUnits (e :: tbl) = samplerUnits tbl ++ e.2.unit.toList := by
  cases hu : e.2.unit <;>
    simp [samplerUnits, List.reverse_cons, List.filterMap_append, hu]

lemma samplerCount_cons_sampler {u : ActiveInfo} (h : isSamplerToken u.typeToken = true)
    (rest : List ActiveInfo) :
    samplerCount (u :: rest) = samplerCount rest + 1 := by
  simp [samplerCount, List.filter_cons, h]

lemma samplerCount_cons_other {u : ActiveInfo} (h : isSamplerToken u.typeToken = false)
    (rest : List ActiveInfo) :
    samplerCount (u :: rest) = samplerCount rest := by
  simp [samplerCount, List.filter_cons, h]

/-- Core invariant of the uniform loop: a successful pass over `us`, starting
from table `tbl` and counter `cnt`, appends exactly the units
`cnt+1, …, cnt + samplerCount us` (in enumeration order) and leaves the
counter at `cnt + samplerCount us`. -/
lemma reflectUniforms_ok (env : GLEnv) :
    ∀ (us : List ActiveInfo) (tbl : List (String × UniformBinding)) (cnt : Nat)
      (out : List (String × UniformBinding) × Nat),
      reflectUniforms env us tbl cnt = Except.ok out →
      samplerUnits out.1 = samplerUnits tbl ++ List.range' (cnt + 1) (samplerCount us) ∧
      out.2 = cnt + samplerCount us := by
  intro us
  induction us with
  | nil =>
    intro tbl cnt out h
    simp only [reflectUniforms] at h
    injection h with h'
    subst h'
    simp [samplerCount]
  | cons u rest ih =>
    intro tbl cnt out h
    simp only [reflectUniforms] at h
    cases hg : getVariableType u.typeToken with
    | error e =>
      rw [hg] at h
      simp at h
    | ok t =>
      rw [hg] at h
      dsimp only at h
      obtain ⟨htv, hmem⟩ := getVariableType_ok_inv hg
      subst htv
      by_cases h2d : (parseType u.typeToken).baseVecType = "2D"
      · rw [allocUnit_2d h2d] at h
        obtain ⟨hu, hc⟩ := ih _ _ _ h
        rw [samplerUnits_cons] at hu
        have hsc : isSamplerToken u.typeToken = true := by
          simp [isSamplerToken, h2d]
        constructor
        · rw [hu, samplerCount_cons_sampler hsc, List.range'_succ]
          simp
        · rw [samplerCount_cons_sampler hsc]
          omega
      · by_cases hcub : (parseType u.typeToken).baseVecType = "CUB"
        · rw [allocUnit_cub hcub] at h
          obtain ⟨hu, hc⟩ := ih _ _ _ h
          rw [samplerUnits_cons] at hu
          have hsc : isSamplerToken u.typeToken = true := by
            simp [isSamplerToken, hcub]
          constructor
          · rw [hu, samplerCount_cons_sampler hsc, List.range'_succ]
            simp
          · rw [samplerCount_cons_sampler hsc]
            omega
        · rw [allocUnit_other h2d hcub] at h
          obtain ⟨hu, hc⟩ := ih _ _ _ h
          rw [samplerUnits_cons] at hu
          have hsc : isSamplerToken u.typeToken = false := by
            simp [isSamplerToken, h2d, hcub]
          constructor
          · rw [hu, samplerCount_cons_other hsc]
            simp
          · rw [samplerCount_cons_other hsc]
            omega

/-- Inversion of a successful construction: the program handle, attribute
table, uniform table and final counter come from the link result and the two
reflection passes (started from empty tables and counter `0`). -/
lemma initProgram_ok_inv {env : GLEnv} {st : ProgramState}
    (h : initProgram env = Except.ok st) :
    st.glProgram = env.programHandle ∧
    reflectAttributes env env.activeAttributes [] = Except.ok st.attributes ∧
    reflectUniforms env env.activeUniforms [] 0 = Except.ok (st.uniforms, st.textureCount) := by
  unfold initProgram at h
  cases h1 : loadShader env ShaderStage.fragment with
  | error e => rw [h1] at h; simp at h
  | ok _ =>
    rw [h1] at h
    cases h2 : loadShader env ShaderStage.vertex with
    | error e => rw [h2] at h; simp at h
    | ok _ =>
      rw [h2] at h
      by_cases hl : env.linkOk = false
      · rw [if_pos hl] at h
        simp at h
      · rw [if_neg hl] at h
        cases ha : reflectAttributes env env.activeAttributes [] with
        | error e => rw [ha] at h; simp at h
        | ok attrs =>
          rw [ha] at h
          cases hu : reflectUniforms env env.activeUniforms [] 0 with
          | error e => rw [hu] at h; simp at h
          | ok outp =>
            rw [hu] at h
            injection h with h'
            subst h'
            exact ⟨rfl, rfl, rfl⟩

/-- A single successful construction numbers its sampler uniforms 1, …, N in
enumeration order and leaves the counter at N. -/
lemma samplerUnits_spec {env : GLEnv} {st : ProgramState}
    (h : initProgram env = Except.ok st) :
    samplerUnits st.uniforms = List.range' 1 (samplerCount env.activeUniforms) ∧
    st.textureCount = samplerCount env.activeUniforms := by
  obtain ⟨-, -, hru⟩ := initProgram_ok_inv h
  have hspec := reflectUniforms_ok env env.activeUniforms [] 0
      (st.uniforms, st.textureCount) hru
  simpa [samplerUnits_nil] using hspec

/-- C1: for every program whose reflected uniforms include N sampler uniforms
(`SAMPLER_2D` or `SAMPLER_CUBE`, any mix), the texture units stored in their
bindings are exactly 1, …, N, each used once, strictly increasing in the
order the uniforms are enumerated during reflection (the unit comes from
pre-incrementing a per-instance counter that starts at 0, so the first
sampler receives unit 1 and the counter ends at N); and two independently
constructed Program instances each number their samplers starting at 1. -/
theorem samplerUnits_exactly_one_to_N (env₁ env₂ : GLEnv) (st₁ st₂ : ProgramState)
    (h₁ : initProgram env₁ = Except.ok st₁) (h₂ : initProgram env₂ = Except.ok st₂) :
    (samplerUnits st₁.uniforms = List.range' 1 (samplerCount env₁.activeUniforms) ∧
     st₁.textureCount = samplerCount env₁.activeUniforms) ∧
    (samplerUnits st₂.uniforms = List.range' 1 (samplerCount env₂.activeUniforms) ∧
     st₂.textureCount = samplerCount env₂.activeUniforms) :=
  ⟨samplerUnits_spec h₁, samplerUnits_spec h₂⟩

/-- Witness for C1: the two concrete instances above each get units 1, …, N
(`[1, 2]` and `[1]` respectively), numbered independently from 1. -/
theorem samplerUnits_exactly_one_to_N_witness :
    (initProgram envC1a = Except.ok stC1a ∧ initProgram envC1b = Except.ok stC1b ∧
     samplerUnits stC1a.uniforms = [1, 2] ∧ samplerUnits stC1b.uniforms = [1]) ∧
    ((samplerUnits stC1a.uniforms = List.range' 1 (samplerCount envC1a.activeUniforms) ∧
      stC1a.textureCount = samplerCount envC1a.activeUniforms) ∧
     (samplerUnits stC1b.uniforms = List.range' 1 (samplerCount envC1b.activeUniforms) ∧
      stC1b.textureCount = samplerCount envC1b.activeUniforms)) :=
  ⟨⟨rfl, rfl, by decide, by decide⟩,
   samplerUnits_exactly_one_to_N envC1a envC1b stC1a stC1b rfl rfl⟩

/-- C2 counterexample: the claim says a bare scalar token such as `FLOAT`
parses with category SCALAR, but `parseType` substitutes `vecType = "VEC1"`,
so the parsed category is VECTOR, not SCALAR. -/
theorem scalar_category_counterexample :
    parseType "FLOAT" =
      { baseType := "FLOAT", vecType := "VEC1", baseVecType := "VEC", vecSize := some 1 } ∧
    specCategoryOf "FLOAT" = some SpecCategory.SCALAR ∧
    codeCategory (parseType "FLOAT") = some SpecCategory.VECTOR ∧
    ¬ codeCategory (parseType "FLOAT") = some SpecCategory.SCALAR := by
  decide

/-- C2 amended: for every supported raw type token, `parseType` yields the
documented (baseType, category, arity) — with the amendment that a token
with no second segment yields category VECTOR and arity 1 (the code
substitutes `VEC1`; there is no SCALAR category in the code). -/
theorem parseType_matches_amended_doc :
    ∀ t ∈ supportedTypes,
      (codeDescriptor t).isSome = true ∧ codeDescriptor t = specDescriptorAmended t := by
  decide

/-- Witness for C2's amended theorem at the token `INT_VEC3`. -/
theorem parseType_matches_amended_doc_witness :
    "INT_VEC3" ∈ supportedTypes ∧
    ((codeDescriptor "INT_VEC3").isSome = true ∧
     codeDescriptor "INT_VEC3" = specDescriptorAmended "INT_VEC3") :=
  ⟨by decide, parseType_matches_amended_doc "INT_VEC3" (by decide)⟩

/-- Every supported token parses to one of the four dispatcher categories. -/
lemma supported_baseVecType : ∀ t ∈ supportedTypes,
    (parseType t).baseVecType = "VEC" ∨ (parseType t).baseVecType = "MAT" ∨
    (parseType t).baseVecType = "2D" ∨ (parseType t).baseVecType = "CUB" := by
  decide

/-- On a stored binding whose token is supported, `uniform` reaches one of
the four dispatch branches: it returns a non-empty GL call trace, leaves the
state unchanged and never throws. -/
lemma uniform_dispatch_total {st : ProgramState} {name : String} {b : UniformBinding}
    (h : st.uniforms.lookup name = some b) (hb : b.type ∈ supportedTypes)
    (value : GLValue) :
    ∃ calls, uniform st name value = Except.ok (calls, st) ∧ calls ≠ [] := by
  rcases supported_baseVecType b.type hb with hv | hm | h2 | hc
  · have heq : uniform st name value = Except.ok ([GLCall.callUniformV
        ("uniform" ++ jsNumToString (parseType b.type).vecSize ++
          (if (parseType b.type).baseType = "FLOAT" then "f" else "i") ++ "v")
        b.position value], st) := by
      unfold uniform
      rw [h]
      dsimp only
      rw [hv]
      rfl
    exact ⟨_, heq, by simp⟩
  · have heq : uniform st name value = Except.ok ([GLCall.callUniformMatrix
        ("uniformMatrix" ++ jsNumToString (parseType b.type).vecSize ++ "fv")
        b.position false value], st) := by
      unfold uniform
      rw [h]
      dsimp only
      rw [hm]
      rfl
    exact ⟨_, heq, by simp⟩
  · have heq : uniform st name value = Except.ok ([GLCall.activeTexture b.unit,
        GLCall.bindTexture TexTarget.texture2D value,
        GLCall.uniform1i b.position b.unit], st) := by
      unfold uniform
      rw [h]
      dsimp only
      rw [h2]
      rfl
    exact ⟨_, heq, by simp⟩
  · have heq : uniform st name value = Except.ok ([GLCall.activeTexture b.unit,
        GLCall.bindTexture TexTarget.textureCubeMap value,
        GLCall.uniform1i b.position b.unit], st) := by
      unfold uniform
      rw [h]
      dsimp only
      rw [hc]
      rfl
    exact ⟨_, heq, by simp⟩

/-- C3: for every uniform name present in the table, `uniform` dispatches
strictly by the binding's parsed category: VECTOR uploads via the call named
by (float → "f", otherwise "i") crossed with the arity; MATRIX uploads via
the matrix call named by the arity, always passing transpose = false;
samplers activate the pre-assigned unit, bind the texture to the 2D or
cube-map target, and upload the unit index (not the texture handle) to the
location. -/
theorem uniform_dispatch_by_category (st : ProgramState) (name : String)
    (value : GLValue) (b : UniformBinding)
    (h : st.uniforms.lookup name = some b) :
    ((parseType b.type).baseVecType = "VEC" →
      uniform st name value = Except.ok ([GLCall.callUniformV
        ("uniform" ++ jsNumToString (parseType b.type).vecSize ++
          (if (parseType b.type).baseType = "FLOAT" then "f" else "i") ++ "v")
        b.position value], st)) ∧
    ((parseType b.type).baseVecType = "MAT" →
      uniform st name value = Except.ok ([GLCall.callUniformMatrix
        ("uniformMatrix" ++ jsNumToString (parseType b.type).vecSize ++ "fv")
        b.position false value], st)) ∧
    ((parseType b.type).baseVecType = "2D" →
      uniform st name value = Except.ok ([GLCall.activeTexture b.unit,
        GLCall.bindTexture TexTarget.texture2D value,
        GLCall.uniform1i b.position b.unit], st)) ∧
    ((parseType b.type).baseVecType = "CUB" →
      uniform st name value = Except.ok ([GLCall.activeTexture b.unit,
        GLCall.bindTexture TexTarget.textureCubeMap value,
        GLCall.uniform1i b.position b.unit], st)) := by
  refine ⟨fun hv => ?_, fun hm => ?_, fun h2 => ?_, fun hc => ?_⟩
  · unfold uniform
    rw [h]
    dsimp only
    rw [hv]
    rfl
  · unfold uniform
    rw [h]
    dsimp only
    rw [hm]
    rfl
  · unfold uniform
    rw [h]
    dsimp only
    rw [h2]
    rfl
  · unfold uniform
    rw [h]
    dsimp only
    rw [hc]
    rfl

/-- Witness for C3 at the sampler uniform `uTex` of `stC3`. -/
theorem uniform_dispatch_by_category_witness :
    stC3.uniforms.lookup "uTex" = some bC3 ∧
    (((parseType bC3.type).baseVecType = "VEC" →
      uniform stC3 "uTex" (GLValue.texture 9) = Except.ok ([GLCall.callUniformV
        ("uniform" ++ jsNumToString (parseType bC3.type).vecSize ++
          (if (parseType bC3.type).baseType = "FLOAT" then "f" else "i") ++ "v")
        bC3.position (GLValue.texture 9)], stC3)) ∧
    ((parseType bC3.type).baseVecType = "MAT" →
      uniform stC3 "uTex" (GLValue.texture 9) = Except.ok ([GLCall.callUniformMatrix
        ("uniformMatrix" ++ jsNumToString (parseType bC3.type).vecSize ++ "fv")
        bC3.position false (GLValue.texture 9)], stC3)) ∧
    ((parseType bC3.type).baseVecType = "2D" →
      uniform stC3 "uTex" (GLValue.texture 9) = Except.ok ([GLCall.activeTexture bC3.unit,
        GLCall.bindTexture TexTarget.texture2D (GLValue.texture 9),
        GLCall.uniform1i bC3.position bC3.unit], stC3)) ∧
    ((parseType bC3.type).baseVecType = "CUB" →
      uniform stC3 "uTex" (GLValue.texture 9) = Except.ok ([GLCall.activeTexture bC3.unit,
        GLCall.bindTexture TexTarget.textureCubeMap (GLValue.texture 9),
        GLCall.uniform1i bC3.position bC3.unit], stC3))) :=
  ⟨by decide, uniform_dispatch_by_category stC3 "uTex" (GLValue.texture 9) bC3 (by decide)⟩

/-- C5: each call checks only its own table — `uniform` on a name absent
from the uniform table and `setAttribute` on a name absent from the
attribute table are silent no-ops: they return normally, issue no GL call
and leave the program state unchanged (regardless of what the other table
holds under that name). -/
theorem absent_name_noop (st : ProgramState) (name : String) (value : GLValue)
    (buffer : Nat) (stride offset : Int) :
    (st.uniforms.lookup name = none →
      uniform st name value = Except.ok ([], st)) ∧
    (st.attributes.lookup name = none →
      setAttribute st name buffer stride offset = ([], st)) := by
  constructor
  · intro hu
    unfold uniform
    rw [hu]
  · intro ha
    unfold setAttribute
    rw [ha]

/-- Witness for C5, exercising both directions independently on `stC3`:
`aPosition` is present in the attribute table yet absent from the uniform
table, so `uniform` no-ops on it; `uColor` is present in the uniform table
yet absent from the attribute table, so `setAttribute` no-ops on it. -/
theorem absent_name_noop_witness :
    (stC3.uniforms.lookup "aPosition" = none ∧
     (stC3.attributes.lookup "aPosition").isSome = true ∧
     uniform stC3 "aPosition" (GLValue.buffer [1, 2, 3]) = Except.ok ([], stC3)) ∧
    (stC3.attributes.lookup "uColor" = none ∧
     (stC3.uniforms.lookup "uColor").isSome = true ∧
     setAttribute stC3 "uColor" 4 12 0 = ([], stC3)) :=
  ⟨⟨by decide, by decide,
    (absent_name_noop stC3 "aPosition" (GLValue.buffer [1, 2, 3]) 4 12 0).1 (by decide)⟩,
   ⟨by decide, by decide,
    (absent_name_noop stC3 "uColor" (GLValue.buffer [1, 2, 3]) 4 12 0).2 (by decide)⟩⟩

/-- C8: for every attribute name present in the table, `setAttribute` binds
the buffer as the active vertex buffer, configures the vertex input layout at
the binding's location with (arity, baseType, normalized = false, stride,
offset), then enables that attribute location. -/
theorem setAttribute_dispatch (st : ProgramState) (name : String) (buffer : Nat)
    (stride offset : Int) (b : AttributeBinding)
    (h : st.attributes.lookup name = some b) :
    setAttribute st name buffer stride offset =
      ([GLCall.bindBuffer "ARRAY_BUFFER" buffer,
        GLCall.vertexAttribPointer b.position (parseType b.type).vecSize
          (parseType b.type).baseType false stride offset,
        GLCall.enableVertexAttribArray b.position], st) := by
  unfold setAttribute
  rw [h]

/-- Witness for C8 at the `aPosition` attribute of `stC3`. -/
theorem setAttribute_dispatch_witness :
    stC3.attributes.lookup "aPosition" = some bC8 ∧
    setAttribute stC3 "aPosition" 4 12 0 =
      ([GLCall.bindBuffer "ARRAY_BUFFER" 4,
        GLCall.vertexAttribPointer bC8.position (parseType bC8.type).vecSize
          (parseType bC8.type).baseType false 12 0,
        GLCall.enableVertexAttribArray bC8.position], stC3) :=
  ⟨by decide, setAttribute_dispatch stC3 "aPosition" 4 12 0 bC8 (by decide)⟩

/-- C9: every supported token parses to one of the four handled categories,
so the dispatcher's default error branch is unreachable: `uniform` on a
stored binding with a supported token never throws. -/
theorem supported_category_never_throws (st : ProgramState) (name : String)
    (value : GLValue) (b : UniformBinding)
    (h : st.uniforms.lookup name = some b) (hb : b.type ∈ supportedTypes) :
    ((parseType b.type).baseVecType = "VEC" ∨ (parseType b.type).baseVecType = "MAT" ∨
     (parseType b.type).baseVecType = "2D" ∨ (parseType b.type).baseVecType = "CUB") ∧
    ∃ calls, uniform st name value = Except.ok (calls, st) := by
  refine ⟨supported_baseVecType b.type hb, ?_⟩
  obtain ⟨calls, hcalls, -⟩ := uniform_dispatch_total h hb value
  exact ⟨calls, hcalls⟩

/-- Witness for C9 at the vector uniform `uColor` of `stC3`. -/
theorem supported_category_never_throws_witness :
    stC3.uniforms.lookup "uColor" = some
      { type := "FLOAT_VEC4", info := { name := "uColor", typeToken := "FLOAT_VEC4" },
        position := 0, unit := none } ∧
    "FLOAT_VEC4" ∈ supportedTypes ∧
    (((parseType "FLOAT_VEC4").baseVecType = "VEC" ∨
      (parseType "FLOAT_VEC4").baseVecType = "MAT" ∨
      (parseType "FLOAT_VEC4").baseVecType = "2D" ∨
      (parseType "FLOAT_VEC4").baseVecType = "CUB") ∧
     ∃ calls, uniform stC3 "uColor" (GLValue.buffer [1, 2, 3, 4]) =
        Except.ok (calls, stC3)) :=
  ⟨by decide, by decide,
   supported_category_never_throws stC3 "uColor" (GLValue.buffer [1, 2, 3, 4])
     { type := "FLOAT_VEC4", info := { name := "uColor", typeToken := "FLOAT_VEC4" },
       position := 0, unit := none } (by decide) (by decide)⟩

/-- C10: `destructor` issues only the deletion of the GPU program handle and
returns the instance state unchanged (tables and counter intact, no destroyed
flag), so subsequent `uniform` / `setAttribute` calls behave exactly as
before destruction; on a stored supported uniform the post-destructor call
still performs its full non-empty GPU dispatch rather than becoming a no-op
or an error. -/
theorem destructor_only_deletes_program (st : ProgramState) :
    destructor st = ([GLCall.deleteProgram st.glProgram], st) ∧
    (∀ name value, uniform (destructor st).2 name value = uniform st name value) ∧
    (∀ name buffer stride offset,
      setAttribute (destructor st).2 name buffer stride offset =
        setAttribute st name buffer stride offset) ∧
    (∀ name value b, st.uniforms.lookup name = some b → b.type ∈ supportedTypes →
      ∃ calls, uniform (destructor st).2 name value =
        Except.ok (calls, (destructor st).2) ∧ calls ≠ []) := by
  refine ⟨rfl, fun _ _ => rfl, fun _ _ _ _ => rfl, fun name value b h hb => ?_⟩
  exact uniform_dispatch_total h hb value

/-- Witness for C10 at the sampler uniform `uTex` of `stC3`. -/
theorem destructor_only_deletes_program_witness :
    stC3.uniforms.lookup "uTex" = some bC3 ∧ bC3.type ∈ supportedTypes ∧
    destructor stC3 = ([GLCall.deleteProgram stC3.glProgram], stC3) ∧
    (∃ calls, uniform (destructor stC3).2 "uTex" (GLValue.texture 9) =
        Except.ok (calls, (destructor stC3).2) ∧ calls ≠ []) :=
  ⟨by decide, by decide, (destructor_only_deletes_program stC3).1,
   (destructor_only_deletes_program stC3).2.2.2 "uTex" (GLValue.texture 9) bC3
     (by decide) (by decide)⟩

/-- C6 counterexample: a fragment-stage compile failure and a vertex-stage
compile failure with the same diagnostic log raise EXACTLY the same error
value, so the raised error cannot carry the failing stage identity — the
message is the log prefixed by a fixed sentence naming no stage. -/
theorem compile_error_lacks_stage_counterexample :
    initProgram envFragFail =
      Except.error ("An error occurred compiling the shaders: bad") ∧
    initProgram envVertFail =
      Except.error ("An error occurred compiling the shaders: bad") ∧
    initProgram envFragFail = initProgram envVertFail :=
  ⟨rfl, rfl, rfl⟩

/-- C6 amended: if either shader stage fails to compile, construction aborts
by raising an error that carries the failing stage's diagnostic log intact
(after a fixed prefix) but NOT the stage identity, and no linked GPU program
handle is produced (construction yields no `ProgramState`). -/
theorem compile_failure_aborts_construction (env : GLEnv)
    (h : env.fragCompileOk = false ∨ env.vertCompileOk = false) :
    initProgram env = Except.error ("An error occurred compiling the shaders: " ++
      (if env.fragCompileOk then env.vertInfoLog else env.fragInfoLog)) := by
  cases hf : env.fragCompileOk with
  | false => simp [initProgram, loadShader, hf]
  | true =>
    have hv : env.vertCompileOk = false := by
      rcases h with h | h
      · rw [hf] at h
        cases h
      · exact h
    simp [initProgram, loadShader, hf, hv]

/-- Witness for C6's amended theorem at the failing-fragment environment. -/
theorem compile_failure_aborts_construction_witness :
    (envFragFail.fragCompileOk = false ∨ envFragFail.vertCompileOk = false) ∧
    initProgram envFragFail =
      Except.error ("An error occurred compiling the shaders: " ++
        (if envFragFail.fragCompileOk then envFragFail.vertInfoLog
         else envFragFail.fragInfoLog)) :=
  ⟨Or.inl rfl, compile_failure_aborts_construction envFragFail (Or.inl rfl)⟩

/-- C7 counterexample: two different unsupported tokens raise the SAME error,
whose message is the constant string `get type failed ' + value` (the
backtick template literal in the source contains no interpolation), so the
raised error does not carry the offending token; whole-program construction
on an unsupported uniform token fails with that same constant message, which
does not contain the token. -/
theorem unsupported_token_error_lacks_token_counterexample :
    getVariableType "UNSIGNED_INT" = Except.error "get type failed \x27 + value" ∧
    getVariableType "FLOAT_MAT2x3" = Except.error "get type failed \x27 + value" ∧
    getVariableType "UNSIGNED_INT" = getVariableType "FLOAT_MAT2x3" ∧
    jsIncludes "get type failed \x27 + value" "UNSIGNED_INT" = false ∧
    initProgram envC7 = Except.error "get type failed \x27 + value" :=
  ⟨rfl, rfl, rfl, by decide, rfl⟩

lemma reflectAttributes_error (env : GLEnv) :
    ∀ (as : List ActiveInfo) (tbl : List (String × AttributeBinding)),
      (∃ a ∈ as, a.typeToken ∉ supportedTypes) →
      reflectAttributes env as tbl = Except.error "get type failed \x27 + value" := by
  intro as
  induction as with
  | nil =>
    intro tbl h
    rcases h with ⟨a, ha, -⟩
    cases ha
  | cons a rest ih =>
    intro tbl h
    by_cases hm : a.typeToken ∈ supportedTypes
    · have hrest : ∃ x ∈ rest, x.typeToken ∉ supportedTypes := by
        rcases h with ⟨x, hx, hxn⟩
        rcases List.mem_cons.mp hx with rfl | hx'
        · exact absurd hm hxn
        · exact ⟨x, hx', hxn⟩
      simp only [reflectAttributes]
      rw [getVariableType_ok hm]
      exact ih _ hrest
    · simp only [reflectAttributes]
      rw [getVariableType_err hm]

lemma reflectAttributes_total (env : GLEnv) :
    ∀ (as : List ActiveInfo) (tbl : List (String × AttributeBinding)),
      (∀ a ∈ as, a.typeToken ∈ supportedTypes) →
      ∃ out, reflectAttributes env as tbl = Except.ok out := by
  intro as
  induction as with
  | nil =>
    intro tbl _
    exact ⟨tbl, rfl⟩
  | cons a rest ih =>
    intro tbl h
    have hm := h a (List.mem_cons_self a rest)
    simp only [reflectAttributes]
    rw [getVariableType_ok hm]
    exact ih _ (fun x hx => h x (List.mem_cons_of_mem a hx))

lemma reflectUniforms_error (env : GLEnv) :
    ∀ (us : List ActiveInfo) (tbl : List (String × UniformBinding)) (cnt : Nat),
      (∃ u ∈ us, u.typeToken ∉ supportedTypes) →
      reflectUniforms env us tbl cnt = Except.error "get type failed \x27 + value" := by
  intro us
  induction us with
  | nil =>
    intro tbl cnt h
    rcases h with ⟨u, hu, -⟩
    cases hu
  | cons u rest ih =>
    intro tbl cnt h
    by_cases hm : u.typeToken ∈ supportedTypes
    · have hrest : ∃ x ∈ rest, x.typeToken ∉ supportedTypes := by
        rcases h with ⟨x, hx, hxn⟩
        rcases List.mem_cons.mp hx with rfl | hx'
        · exact absurd hm hxn
        · exact ⟨x, hx', hxn⟩
      simp only [reflectUniforms]
      rw [getVariableType_ok hm]
      exact ih _ _ hrest
    · simp only [reflectUniforms]
      rw [getVariableType_err hm]

/-- C7 amended: if reflection (attribute or uniform enumeration) encounters
a raw type token outside the supported seventeen, the whole construction
fails — no variable is silently skipped and no binding tables are produced —
but the raised error is the CONSTANT message `get type failed ' + value`
(an uninterpolated template literal) and does not carry the token. -/
theorem unknown_token_aborts_construction (env : GLEnv)
    (hf : env.fragCompileOk = true) (hv : env.vertCompileOk = true)
    (hl : env.linkOk = true)
    (hbad : (∃ a ∈ env.activeAttributes, a.typeToken ∉ supportedTypes) ∨
            (∃ u ∈ env.activeUniforms, u.typeToken ∉ supportedTypes)) :
    initProgram env = Except.error "get type failed \x27 + value" := by
  by_cases hA : ∃ a ∈ env.activeAttributes, a.typeToken ∉ supportedTypes
  · have hAerr := reflectAttributes_error env env.activeAttributes [] hA
    simp [initProgram, loadShader, hf, hv, hl, hAerr]
  · have hAll : ∀ a ∈ env.activeAttributes, a.typeToken ∈ supportedTypes := by
      intro a ha
      by_contra hn
      exact hA ⟨a, ha, hn⟩
    obtain ⟨attrs, hattrs⟩ := reflectAttributes_total env env.activeAttributes [] hAll
    have hU : ∃ u ∈ env.activeUniforms, u.typeToken ∉ supportedTypes :=
      hbad.resolve_left hA
    have hUerr := reflectUniforms_error env env.activeUniforms [] 0 hU
    simp [initProgram, loadShader, hf, hv, hl, hattrs, hUerr]

/-- Witness for C7's amended theorem at `envC7`. -/
theorem unknown_token_aborts_construction_witness :
    (envC7.fragCompileOk = true ∧ envC7.vertCompileOk = true ∧ envC7.linkOk = true ∧
     (∃ u ∈ envC7.activeUniforms, u.typeToken ∉ supportedTypes)) ∧
    initProgram envC7 = Except.error "get type failed \x27 + value" :=
  ⟨⟨rfl, rfl, rfl, by decide⟩,
   unknown_token_aborts_construction envC7 rfl rfl rfl (Or.inr (by decide))⟩

/-- C4 counterexample: the GPU-reported name `a[0].b[0]` carries the
array-element suffix `[0]`, but JS `replace` removes the FIRST occurrence,
so reflection stores the binding under `a.b[0]` — not under the
suffix-stripped `a[0].b`, where lookup finds no entry. -/
theorem canonicalization_not_suffix_strip_counterexample :
    initProgram envC4 = Except.ok stC4 ∧
    canonicalName "a[0].b[0]" = "a.b[0]" ∧
    stC4.uniforms.lookup "a[0].b" = none ∧
    (stC4.uniforms.lookup "a.b[0]").isSome = true :=
  ⟨rfl, by decide, by decide, by decide⟩

lemma strStartsWith_append_pattern_false (c : Char) (cs : List Char)
    (h : strStartsWith (c :: cs) ['[', '0', ']'] = false) :
    strStartsWith (c :: cs ++ ['[', '0', ']']) ['[', '0', ']'] = false := by
  match cs with
  | [] =>
    have h1 : (('[' : Char) == '0') = false := by decide
    simp [strStartsWith, h1]
  | [d] =>
    have h1 : (('[' : Char) == ']') = false := by decide
    simp [strStartsWith, h1]
  | d :: e :: es =>
    simpa [strStartsWith] using h

lemma containsSub_append_pattern :
    ∀ l : List Char, containsSub (l ++ ['[', '0', ']']) ['[', '0', ']'] = true := by
  intro l
  induction l with
  | nil => decide
  | cons c cs ih => simp [containsSub, List.cons_append, ih]

/-- When the pattern `[0]` does not occur in `l`, replacing its first
occurrence in `l ++ "[0]"` removes exactly the trailing copy. -/
lemma replaceFirst_append_pattern :
    ∀ l : List Char, containsSub l ['[', '0', ']'] = false →
      replaceFirstSub (l ++ ['[', '0', ']']) ['[', '0', ']'] [] = l := by
  intro l
  induction l with
  | nil =>
    intro _
    decide
  | cons c cs ih =>
    intro h
    rw [containsSub] at h
    obtain ⟨hs, hcs⟩ := Bool.or_eq_false_iff.mp h
    have hsw := strStartsWith_append_pattern_false c cs hs
    rw [List.cons_append] at hsw
    rw [List.cons_append, replaceFirstSub, if_neg (by simp [hsw])]
    exact congrArg (c :: ·) (ih hcs)

/-- On a name of the form `base ++ "[0]"` where `[0]` does not occur in
`base`, the source's canonicalization strips exactly the trailing suffix. -/
lemma canonicalName_strip_suffix (base : String)
    (h : containsSub base.data ("[0]").data = false) :
    canonicalName (base ++ "[0]") = base := by
  have hdata : (base ++ "[0]").data = base.data ++ ['[', '0', ']'] :=
    String.data_append base "[0]"
  have hpat : ("[0]").data = ['[', '0', ']'] := rfl
  unfold canonicalName jsIncludes jsReplaceFirst
  rw [hdata, hpat]
  rw [if_pos (by simp [containsSub_append_pattern base.data])]
  rw [replaceFirst_append_pattern base.data (by rw [hpat] at h; exact h)]

lemma lookup_cons_ne {k k' : String} {v : UniformBinding}
    {l : List (String × UniformBinding)} (h : ¬ k = k') :
    ((k', v) :: l).lookup k = l.lookup k := by
  have hb : (k == k') = false := by
    simpa using h
  simp [List.lookup, hb]

lemma lookup_isSome_of_mem :
    ∀ {l : List (String × UniformBinding)} {k : String} {v : UniformBinding},
      (k, v) ∈ l → (l.lookup k).isSome = true := by
  intro l
  induction l with
  | nil =>
    intro k v h
    cases h
  | cons e rest ih =>
    intro k v h
    obtain ⟨k', v'⟩ := e
    rcases List.mem_cons.mp h with heq | h'
    · injection heq with h1 h2
      subst h1
      simp [List.lookup]
    · by_cases hk : k = k'
      · subst hk
        simp [List.lookup]
      · rw [lookup_cons_ne hk]
        exact ih h'

lemma reflectUniforms_mono (env : GLEnv) :
    ∀ (us : List ActiveInfo) (tbl : List (String × UniformBinding)) (cnt : Nat)
      (out : List (String × UniformBinding) × Nat),
      reflectUniforms env us tbl cnt = Except.ok out →
      ∀ x ∈ tbl, x ∈ out.1 := by
  intro us
  induction us with
  | nil =>
    intro tbl cnt out h x hx
    simp only [reflectUniforms] at h
    injection h with h'
    subst h'
    exact hx
  | cons u rest ih =>
    intro tbl cnt out h x hx
    simp only [reflectUniforms] at h
    cases hg : getVariableType u.typeToken with
    | error e =>
      rw [hg] at h
      simp at h
    | ok t =>
      rw [hg] at h
      dsimp only at h
      exact ih _ _ _ h x (List.mem_cons_of_mem _ hx)

/-- Every enumerated uniform ends up in the table under its canonicalized
name, with its reflection report stored in the binding's `info`. -/
lemma reflectUniforms_mem (env : GLEnv) :
    ∀ (us : List ActiveInfo) (tbl : List (String × UniformBinding)) (cnt : Nat)
      (out : List (String × UniformBinding) × Nat),
      reflectUniforms env us tbl cnt = Except.ok out →
      ∀ u ∈ us, ∃ b : UniformBinding, (canonicalName u.name, b) ∈ out.1 ∧ b.info = u := by
  intro us
  induction us with
  | nil =>
    intro tbl cnt out h u hu
    cases hu
  | cons u0 rest ih =>
    intro tbl cnt out h u hu
    simp only [reflectUniforms] at h
    cases hg : getVariableType u0.typeToken with
    | error e =>
      rw [hg] at h
      simp at h
    | ok t =>
      rw [hg] at h
      dsimp only at h
      rcases List.mem_cons.mp hu with rfl | hu'
      · exact ⟨_, reflectUniforms_mono env _ _ _ _ h _ (List.mem_cons_self _ _), rfl⟩
      · exact ih _ _ _ h u hu'

/-- A name to which no enumerated uniform canonicalizes is absent from the
final table (when it was absent from the starting table). -/
lemma reflectUniforms_lookup_none (env : GLEnv) :
    ∀ (us : List ActiveInfo) (tbl : List (String × UniformBinding)) (cnt : Nat)
      (out : List (String × UniformBinding) × Nat) (n : String),
      reflectUniforms env us tbl cnt = Except.ok out →
      (∀ u ∈ us, canonicalName u.name ≠ n) →
      tbl.lookup n = none →
      out.1.lookup n = none := by
  intro us
  induction us with
  | nil =>
    intro tbl cnt out n h _ htbl
    simp only [reflectUniforms] at h
    injection h with h'
    subst h'
    exact htbl
  | cons u rest ih =>
    intro tbl cnt out n h hne htbl
    simp only [reflectUniforms] at h
    cases hg : getVariableType u.typeToken with
    | error e =>
      rw [hg] at h
      simp at h
    | ok t =>
      rw [hg] at h
      dsimp only at h
      refine ih _ _ _ _ h (fun v hv => hne v (List.mem_cons_of_mem _ hv)) ?_
      rw [lookup_cons_ne (fun he => hne u (List.mem_cons_self _ _) he.symm)]
      exact htbl

/-- C4 amended: reflection stores each uniform's binding under the reported
name with the FIRST occurrence of `[0]` removed (JS `replace` semantics) —
which equals stripping the trailing `[0]` suffix whenever that suffix is the
only occurrence, so a uniform reported `foo[0]` resolves via `foo` — while
the suffixed form finds no entry unless some uniform canonicalizes to it. -/
theorem uniform_name_canonicalization_amended (env : GLEnv) (st : ProgramState)
    (h : initProgram env = Except.ok st) :
    (∀ u ∈ env.activeUniforms, ∃ b : UniformBinding,
        (canonicalName u.name, b) ∈ st.uniforms ∧ b.info = u) ∧
    (∀ base : String, containsSub base.data ("[0]").data = false →
        canonicalName (base ++ "[0]") = base) ∧
    (∀ base : String, containsSub base.data ("[0]").data = false →
        (∃ u ∈ env.activeUniforms, u.name = base ++ "[0]") →
        (st.uniforms.lookup base).isSome = true) ∧
    (∀ n : String, (∀ u ∈ env.activeUniforms, canonicalName u.name ≠ n) →
        st.uniforms.lookup n = none) := by
  obtain ⟨-, -, hru⟩ := initProgram_ok_inv h
  refine ⟨?_, ?_, ?_, ?_⟩
  · intro u hu
    exact reflectUniforms_mem env env.activeUniforms [] 0 _ hru u hu
  · intro base hb
    exact canonicalName_strip_suffix base hb
  · intro base hb hex
    obtain ⟨u, hu, hname⟩ := hex
    obtain ⟨b, hmem, -⟩ := reflectUniforms_mem env env.activeUniforms [] 0 _ hru u hu
    rw [hname, canonicalName_strip_suffix base hb] at hmem
    exact lookup_isSome_of_mem hmem
  · intro n hn
    exact reflectUniforms_lookup_none env env.activeUniforms [] 0 _ n hru hn rfl

/-- Witness for C4's amended theorem: `uLights[0]` resolves via `uLights`
and not via `uLights[0]`. -/
theorem uniform_name_canonicalization_amended_witness :
    (initProgram envC4b = Except.ok stC4b ∧
     containsSub ("uLights").data ("[0]").data = false ∧
     (∃ u ∈ envC4b.activeUniforms, u.name = "uLights" ++ "[0]") ∧
     (∀ u ∈ envC4b.activeUniforms, canonicalName u.name ≠ "uLights[0]")) ∧
    (stC4b.uniforms.lookup "uLights").isSome = true ∧
    stC4b.uniforms.lookup "uLights[0]" = none :=
  ⟨⟨rfl, by decide, by decide, by decide⟩,
   (uniform_name_canonicalization_amended envC4b stC4b rfl).2.2.1 "uLights"
     (by decide) (by decide),
   (uniform_name_canonicalization_amended envC4b stC4b rfl).2.2.2 "uLights[0]"
     (by decide)⟩
